import Mathlib

/-!
# Server bootstrap: provisioning, middleware chain, static assets, lifecycle

A shallow embedding of `pkg/config/config.go` and `pkg/server/server.go`.

The packages the server is wired from (`database`, `repository`, `docker`,
`kubernetes`, `middleware`, `authorization`, gin, `net/http`, `os`) are
external to these files.  Their calls are kept as fields of an environment
record (`Collab`, `Runtime`, `StaticEnv`): each field fixes the outcome of one
external call as a function of its arguments.  Every call that matters for
ordering is also written to a call log, so that "is called", "exactly once"
and "before" are statements about that log.
-/

namespace GoWebInit

/-! ## pkg/config/config.go -/

/-- Go `error` values are represented by their message. -/
abbrev Error := String

/-- The type `ratelimit.LimitConfig`; only its identity matters here. -/
structure LimitConfig where
  rule : String
  deriving DecidableEq, Repr

/-- The struct `ServerConfig`. -/
structure ServerConfig where
  ENV : String
  Address : String
  Port : Int
  GracefulShutdownPeriod : Int
  LimitConfigs : List LimitConfig
  JWTSecret : String
  DbType : String
  deriving DecidableEq, Repr

/-- The struct `DBConfig`. -/
structure DBConfig where
  Host : String
  Port : Int
  Name : String
  User : String
  Password : String
  Migrate : Bool
  File : String
  deriving DecidableEq, Repr

/-- The struct `RedisConfig`. -/
structure RedisConfig where
  Enable : Bool
  Host : String
  Port : Int
  Password : String
  deriving DecidableEq, Repr

/-- The struct `OAuthConfig`. -/
structure OAuthConfig where
  AuthType : String
  ClientId : String
  ClientSecret : String
  deriving DecidableEq, Repr

/-- The struct `DockerConfig`. -/
structure DockerConfig where
  Enable : Bool
  Host : String
  deriving DecidableEq, Repr

/-- The struct `KubeConfig`. -/
structure KubeConfig where
  Enable : Bool
  WatchResources : List String
  deriving DecidableEq, Repr

/-- The struct `Config`; the map `OAuthConfig` is kept as an association list. -/
structure Config where
  Server : ServerConfig
  Postgres : DBConfig
  Mysql : DBConfig
  Sqlite : DBConfig
  Redis : RedisConfig
  OAuthConfig : List (String × OAuthConfig)
  Docker : DockerConfig
  Kubernetes : KubeConfig
  deriving DecidableEq, Repr

/-! ## Handles returned by the external constructors -/

/-- A `*gorm.DB` handle. -/
structure GormDB where
  id : Nat
  deriving DecidableEq, Repr

/-- A redis client handle (`database.NewRedisClient`). -/
structure RedisDB where
  id : Nat
  deriving DecidableEq, Repr

/-- A `*docker.Client` handle. -/
structure DockerClient where
  id : Nat
  deriving DecidableEq, Repr

/-- A `*kubernetes.KubeClient` handle. -/
structure KubeClient where
  id : Nat
  deriving DecidableEq, Repr

/-- A `*logrus.Logger`. -/
structure Logger where
  id : Nat
  deriving DecidableEq, Repr

/-- The value `repository.NewRepository(db, rdb)`. -/
structure Repository where
  db : GormDB
  rdb : RedisDB
  deriving DecidableEq, Repr

/-- The controllers that `New` constructs, by the constructor that built them. -/
inductive Controller
  | user
  | group
  | auth
  | container (client : Option DockerClient)
  | rbac
  | kube (client : Option KubeClient)
  | post
  deriving DecidableEq, Repr

/-- The method `Controller.Name`, standing for the controller kind. -/
def Controller.Name : Controller → String
  | .user => "User"
  | .group => "Group"
  | .auth => "Auth"
  | .container _ => "Container"
  | .rbac => "RBAC"
  | .kube _ => "Kube"
  | .post => "Post"

/-! ## gin: request context and handler chain -/

/-- The ten handlers passed to `e.Use` in `New`. -/
inductive Stage
  | recovery
  | rateLimit
  | static
  | monitor
  | cors
  | requestInfo
  | log
  | authentication
  | authorization
  | trace
  deriving DecidableEq, Repr

/-- What a request leaves behind while it travels through the chain. -/
inductive Event
  | fsOpen (name : String) (found : Bool)
  | osOpen (name : String) (found : Bool)
  | serveHTTP (path : String)
  | file (path : String)
  | close (name : String)
  | ran (s : Stage)
  deriving DecidableEq, Repr

/-- The part of `gin.Context` the static handler touches: the request path,
the chain index, and the observable effects so far. -/
structure Context where
  path : String
  index : Int
  events : List Event
  deriving DecidableEq, Repr

/-- Why a chain run produced no context. -/
inductive Fault
  | panic (err : Error)
  | fuel
  deriving DecidableEq, Repr

/-- The constant `abortIndex` of gin (`math.MaxInt8 >> 1`). -/
def abortIndex : Int := 63

/-- The constant `gin.ReleaseMode`. -/
def ReleaseMode : String := "release"

/-- Append one effect to the context. -/
def Context.emit (c : Context) (e : Event) : Context :=
  { c with events := c.events ++ [e] }

/-- The method `Context.Abort` of gin: `c.index = abortIndex`. -/
def Context.Abort (c : Context) : Context :=
  { c with index := abortIndex }

/-- The method `Context.IsAborted` of gin. -/
def Context.IsAborted (c : Context) : Bool :=
  decide (c.index ≥ abortIndex)

/-- A `gin.HandlerFunc`.  Its first argument is what `ctx.Next()` does in the
chain the handler is installed in. -/
abbrev HandlerFunc := (Context → Except Fault Context) → Context → Except Fault Context

/-- Arithmetic on `int8` (the chain index) wraps around. -/
def wrapInt8 (x : Int) : Int :=
  (x + 128) % 256 - 128

mutual
/-- The method `Context.Next` of gin: `c.index++`, then the handler loop. -/
def Next (handlers : List HandlerFunc) : Nat → Context → Except Fault Context
  | 0, _ => .error .fuel
  | n + 1, c => handlerLoop handlers n { c with index := wrapInt8 (c.index + 1) }
/-- The loop of `Context.Next`:
`for c.index < int8(len(c.handlers)) { c.handlers[c.index](c); c.index++ }`. -/
def handlerLoop (handlers : List HandlerFunc) : Nat → Context → Except Fault Context
  | 0, _ => .error .fuel
  | n + 1, c =>
    if c.index < wrapInt8 handlers.length then
      if c.index < 0 then .error (.panic "index out of range")
      else
        match handlers.get? c.index.toNat with
        | none => .error (.panic "index out of range")
        | some h =>
          match h (Next handlers n) c with
          | .error f => .error f
          | .ok c1 => handlerLoop handlers n { c1 with index := wrapInt8 (c1.index + 1) }
    else .ok c
end

/-- How gin serves one request: the context is reset (`index = -1`) and
`c.Next()` is called. -/
def serve (handlers : List HandlerFunc) (fuel : Nat) (path : String) : Except Fault Context :=
  Next handlers fuel { path := path, index := -1, events := [] }

/-! ## ServerStatic -/

/-- The function `strings.Contains` on the characters of both strings. -/
def stringsContains (s substr : String) : Bool :=
  s.toList.tails.any fun t => substr.toList.isPrefixOf t

/-- A file tree as seen through `http.FS`: which names `Open` finds. -/
structure FileTree where
  Open : String → Bool

/-- An `embed.FS`: what `fs.Sub` returns for a directory name. -/
structure EmbedFS where
  Sub : String → Except Error FileTree

/-- The live file system: which names `os.Open` finds. -/
structure StaticEnv where
  osOpen : String → Bool

/-- The function `ServerStatic`. -/
def ServerStatic (os : StaticEnv) (pfx : String) (mode : String) (embedFs : EmbedFS) :
    HandlerFunc :=
  fun next ctx =>
    if mode = ReleaseMode then
      match embedFs.Sub pfx with
      | .error err => .error (.panic err)
      | .ok fs2 =>
        let found := fs2.Open ctx.path
        let ctx := ctx.emit (.fsOpen ctx.path found)
        if !found then
          next ctx
        else
          let ctx := ctx.emit (.serveHTTP ctx.path)
          let ctx := ctx.Abort
          .ok (ctx.emit (.close ctx.path))
    else
      let requestPath := ctx.path
      if stringsContains requestPath ".." then
        next ctx
      else
        let absfilestr := pfx ++ requestPath
        let found := os.osOpen absfilestr
        let ctx := ctx.emit (.osOpen absfilestr found)
        if found then
          let ctx := ctx.emit (.file absfilestr)
          .ok (ctx.emit (.close absfilestr))
        else
          next ctx

/-! ## server.New -/

/-- The value `authentication.NewJWTService(secret)`. -/
structure JWTService where
  secret : String
  deriving DecidableEq, Repr

/-- The external calls of `New`, one field per call site.  A Go result
`(value, error)` that is discarded on error is an `Except`; the two optional
clients keep both components, because `New` stores the returned pointer
whatever the error was. -/
structure Collab where
  RateLimitMiddleware : List LimitConfig → Except Error HandlerFunc
  NewMysql : DBConfig → Except Error GormDB
  NewSqlite : DBConfig → Except Error GormDB
  NewPostgres : DBConfig → Except Error GormDB
  NewRedisClient : RedisConfig → Except Error RedisDB
  DockerNewClient : String → Option DockerClient × Option Error
  KubeNewClient : KubeConfig → Option KubeClient × Option Error
  Migrate : Repository → Option Error
  Init : Repository → Option Error
  InitAuthorization : Repository → Option Error
  Recovery : HandlerFunc
  MonitorMiddleware : HandlerFunc
  CORSMiddleware : HandlerFunc
  RequestInfoMiddleware : List String → HandlerFunc
  LogMiddleware : Logger → String → HandlerFunc
  AuthenticationMiddleware : JWTService → Repository → HandlerFunc
  AuthorizationMiddleware : HandlerFunc
  TraceMiddleware : HandlerFunc
  os : StaticEnv

/-- The call log of `New`: every external call, in program order. -/
inductive Call
  | RateLimitMiddleware
  | NewMysql (cfg : DBConfig)
  | NewSqlite (cfg : DBConfig)
  | NewPostgres (cfg : DBConfig)
  | NewRedisClient
  | DockerNewClient (host : String)
  | KubeNewClient
  | Warn (msg : String)
  | NewRepository
  | Migrate
  | Init
  | NewUserService
  | NewGroupService
  | NewJWTService
  | NewRBACService
  | NewOAuthManager
  | NewUserController
  | NewGroupController
  | NewAuthController
  | NewContainerController
  | NewRbacController
  | NewKubeControllers
  | NewPostService
  | NewPostController
  | InitAuthorization
  | SetMode (mode : String)
  | GinNew
  | Use
  | LoadHTMLFiles (file : String)
  deriving DecidableEq, Repr

/-- The part of `*gin.Engine` that `New` and `initRouter` fill in. -/
structure Engine where
  mode : String
  handlers : List (Stage × HandlerFunc)
  htmlFiles : List String

/-- The struct `Server`. -/
structure Server where
  engine : Engine
  config : Config
  logger : Logger
  containerClient : Option DockerClient
  kubeClient : Option KubeClient
  repository : Repository
  controllers : List Controller

/-- What one call of `New` leaves behind: the configuration behind the `conf`
pointer, the call log, and the returned pair as an `Except`. -/
structure Provisioned where
  conf : Config
  calls : List Call
  result : Except Error Server

/-- The function `errors.Wrap` for a non-nil error. -/
def Wrap (err : Error) (message : String) : Error :=
  message ++ ": " ++ err

/-- Whether `New` returned a server. -/
def Provisioned.succeeds (p : Provisioned) : Bool :=
  match p.result with
  | .ok _ => true
  | .error _ => false

/-- What one block of `New` hands to the rest of the function: the value it
bound, the configuration behind the `conf` pointer afterwards, and the external
calls it made. -/
structure Step (α : Type) where
  value : α
  conf : Config
  calls : List Call

/-- The `switch conf.Server.DbType` block of `New` (lines 55-72): the selected
constructor is called and its error, if any, is wrapped. -/
def openDatabase (x : Collab) (conf : Config) : Step (Except Error GormDB) :=
  if conf.Server.DbType = "mysql" then
    { conf := conf
      calls := [.NewMysql conf.Mysql]
      value :=
        match x.NewMysql conf.Mysql with
        | .error err => .error (Wrap err "Mysql db init failed")
        | .ok db => .ok db }
  else if conf.Server.DbType = "sqlite" then
    { conf := conf
      calls := [.NewSqlite conf.Sqlite]
      value :=
        match x.NewSqlite conf.Sqlite with
        | .error err => .error (Wrap err "Sqlite db init failed")
        | .ok db => .ok db }
  else
    { conf := conf
      calls := [.NewPostgres conf.Postgres]
      value :=
        match x.NewPostgres conf.Postgres with
        | .error err => .error (Wrap err "Postgres db init failed")
        | .ok db => .ok db }

/-- The `if conf.Docker.Enable` block of `New` (lines 79-86). -/
def dockerStep (x : Collab) (conf : Config) : Step (Option DockerClient) :=
  if conf.Docker.Enable then
    match x.DockerNewClient conf.Docker.Host with
    | (conClient, some err) =>
      { value := conClient
        conf := { conf with Docker := { conf.Docker with Enable := false } }
        calls := [.DockerNewClient conf.Docker.Host,
          .Warn ("failed to create docker client, container api disabled: " ++ err)] }
    | (conClient, none) =>
      { value := conClient, conf := conf, calls := [.DockerNewClient conf.Docker.Host] }
  else
    { value := none, conf := conf, calls := [] }

/-- The `if conf.Kubernetes.Enable` block of `New` (lines 88-95). -/
def kubeStep (x : Collab) (conf : Config) : Step (Option KubeClient) :=
  if conf.Kubernetes.Enable then
    match x.KubeNewClient conf.Kubernetes with
    | (kubeClient, some err) =>
      { value := kubeClient
        conf := { conf with Kubernetes := { conf.Kubernetes with Enable := false } }
        calls := [.KubeNewClient, .Warn ("failed to create k8s client: " ++ err)] }
    | (kubeClient, none) =>
      { value := kubeClient, conf := conf, calls := [.KubeNewClient] }
  else
    { value := none, conf := conf, calls := [] }

/-- The `if conf.Postgres.Migrate` block of `New` (lines 98-102). -/
def migrateStep (x : Collab) (conf : Config) (repository : Repository) : Step (Option Error) :=
  if conf.Postgres.Migrate then
    { value := x.Migrate repository, conf := conf, calls := [.Migrate] }
  else
    { value := none, conf := conf, calls := [] }

/-- The services and controllers that `New` constructs between `repository.Init`
and `authorization.InitAuthorization` (lines 108-120), in program order. -/
def wiringCalls : List Call :=
  [.NewUserService, .NewGroupService, .NewJWTService, .NewRBACService, .NewOAuthManager,
    .NewUserController, .NewGroupController, .NewAuthController, .NewContainerController,
    .NewRbacController, .NewKubeControllers, .NewPostService, .NewPostController]

/-- The function `New`.  The package variable `dist` is the argument `dist`;
the four conditional blocks are `openDatabase`, `dockerStep`, `kubeStep` and
`migrateStep`. -/
def New (x : Collab) (dist : EmbedFS) (conf : Config) (logger : Logger) : Provisioned :=
  let log0 : List Call := [.RateLimitMiddleware]
  match x.RateLimitMiddleware conf.Server.LimitConfigs with
  | .error err => ⟨conf, log0, .error err⟩
  | .ok rateLimitMiddleware =>
  let log1 := log0 ++ (openDatabase x conf).calls
  match (openDatabase x conf).value with
  | .error err => ⟨conf, log1, .error err⟩
  | .ok db =>
  let log2 := log1 ++ [.NewRedisClient]
  match x.NewRedisClient conf.Redis with
  | .error err => ⟨conf, log2, .error (Wrap err "redis client failed")⟩
  | .ok rdb =>
  let docker := dockerStep x conf
  let conClient := docker.value
  let kube := kubeStep x docker.conf
  let kubeClient := kube.value
  let conf := kube.conf
  let repository : Repository := ⟨db, rdb⟩
  let log3 := log2 ++ docker.calls ++ kube.calls ++ [.NewRepository]
    ++ (migrateStep x conf repository).calls
  match (migrateStep x conf repository).value with
  | some err => ⟨conf, log3, .error err⟩
  | none =>
  let log4 := log3 ++ [.Init]
  match x.Init repository with
  | some err => ⟨conf, log4, .error err⟩
  | none =>
  let jwtService : JWTService := ⟨conf.Server.JWTSecret⟩
  let userController := Controller.user
  let groupController := Controller.group
  let authController := Controller.auth
  let containerController := Controller.container conClient
  let rbacController := Controller.rbac
  let kubeController := Controller.kube kubeClient
  let postController := Controller.post
  let log5 := log4 ++ wiringCalls ++ [.InitAuthorization]
  match x.InitAuthorization repository with
  | some err => ⟨conf, log5, .error err⟩
  | none =>
  let controllers := [userController, groupController, authController, rbacController,
    postController]
  let controllers := if conf.Docker.Enable then controllers ++ [containerController]
    else controllers
  let controllers := if conf.Kubernetes.Enable then controllers ++ [kubeController]
    else controllers
  let e : Engine :=
    { mode := conf.Server.ENV
      handlers := [
        (.recovery, x.Recovery),
        (.rateLimit, rateLimitMiddleware),
        (.static, ServerStatic x.os "dist" conf.Server.ENV dist),
        (.monitor, x.MonitorMiddleware),
        (.cors, x.CORSMiddleware),
        (.requestInfo, x.RequestInfoMiddleware ["api"]),
        (.log, x.LogMiddleware logger "/"),
        (.authentication, x.AuthenticationMiddleware jwtService repository),
        (.authorization, x.AuthorizationMiddleware),
        (.trace, x.TraceMiddleware)]
      htmlFiles := ["static/terminal.html"] }
  ⟨conf, log5 ++ [.SetMode conf.Server.ENV, .GinNew, .Use, .LoadHTMLFiles "static/terminal.html"],
    .ok
      { engine := e
        config := conf
        logger := logger
        repository := repository
        containerClient := conClient
        kubeClient := kubeClient
        controllers := controllers }⟩

/-! ## Server.Run, Server.Close, Server.Ping -/

/-- The constant `time.Second`, in nanoseconds. -/
def Second : Int := 1000000000

/-- Arithmetic on `int64` (`time.Duration`) wraps around. -/
def wrapInt64 (x : Int) : Int :=
  (x + 2 ^ 63) % 2 ^ 64 - 2 ^ 63

/-- The external calls of one process run.  `startedAt` is the clock reading
(nanoseconds) when `Run` calls `context.WithTimeout`; the termination signal
arrives `uptime` nanoseconds later. -/
structure Runtime where
  StartCache : KubeClient → Option Error
  startedAt : Int
  uptime : Nat
  signal : String
  Shutdown : (deadline : Int) → (now : Int) → Option Error
  RepositoryClose : Repository → Option Error
  ContainerClose : DockerClient → Option Error
  RepositoryPing : Repository → (timeout : Int) → Option Error

/-- The clock reading at which the signal is received. -/
def Runtime.signalAt (rt : Runtime) : Int :=
  rt.startedAt + rt.uptime

/-- What one process run does, in program order. -/
inductive RunEvent
  | Route (method path : String)
  | RegisterRoute (controller : String)
  | Info (msg : String)
  | Warn (msg : String)
  | StartCache
  | GoListenAndServe (addr : String)
  | Notify
  | WithTimeout (deadline : Int)
  | Receive (signal : String) (now : Int)
  | Shutdown (deadline : Int) (now : Int)
  | Cancel
  | RepositoryClose
  | ContainerClose (client : DockerClient)
  deriving DecidableEq, Repr

/-- The method `Server.Close`. -/
def Server.Close (rt : Runtime) (s : Server) : List RunEvent :=
  let repo : List RunEvent :=
    match rt.RepositoryClose s.repository with
    | some err => [.RepositoryClose, .Warn ("failed to close repository, " ++ err)]
    | none => [.RepositoryClose]
  let client : List RunEvent :=
    match s.containerClient with
    | some c =>
      match rt.ContainerClose c with
      | some err => [.ContainerClose c, .Warn ("failed to close container client, " ++ err)]
      | none => [.ContainerClose c]
    | none => []
  repo ++ client

/-- The method `Server.initRouter`. -/
def Server.initRouter (s : Server) : List RunEvent :=
  let fixed : List RunEvent :=
    [.Route "GET" "/api/list", .Route "GET" "/api/index", .Route "GET" "/healthz",
      .Route "GET" "/version", .Route "GET" "/metrics", .Route "ANY" "/debug/pprof/*any"]
  let swagger : List RunEvent :=
    if s.engine.mode ≠ ReleaseMode then [.Route "GET" "/swagger/*any"] else []
  let controllers := s.controllers.map fun router => router.Name
  fixed ++ swagger ++ (s.controllers.map fun router => RunEvent.RegisterRoute router.Name)
    ++ [.Info ("server enabled controllers: " ++ toString controllers)]

/-- What one call of `Run` does and returns. -/
structure RunResult where
  events : List RunEvent
  ret : Option Error
  deriving DecidableEq, Repr

/-- The method `Server.Run`, for a run in which the listener goroutine does not
hit `Fatalf` and a signal arrives.  Deferred calls run last, newest first. -/
def Server.Run (rt : Runtime) (s : Server) : RunResult :=
  let deferClose := s.Close rt
  let ev0 := s.initRouter
  let cacheStep : List RunEvent × Option Error :=
    match s.kubeClient with
    | some k => (ev0 ++ [.StartCache], rt.StartCache k)
    | none => (ev0, none)
  match cacheStep.2 with
  | some err => ⟨cacheStep.1 ++ deferClose, some err⟩
  | none =>
  let addr := s.config.Server.Address ++ ":" ++ toString s.config.Server.Port
  let deadline := rt.startedAt + wrapInt64 (wrapInt64 s.config.Server.GracefulShutdownPeriod * Second)
  let ev1 := cacheStep.1 ++ [.Info ("Start server on: " ++ addr), .GoListenAndServe addr,
    .Notify, .WithTimeout deadline]
  let deferCancel : List RunEvent := [.Cancel]
  let ev2 := ev1 ++ [.Receive rt.signal rt.signalAt, .Info ("Receive signal: " ++ rt.signal),
    .Shutdown deadline rt.signalAt]
  ⟨ev2 ++ deferCancel ++ deferClose, rt.Shutdown deadline rt.signalAt⟩

/-- The struct `ServerStatus`. -/
structure ServerStatus where
  Ping : Bool
  DBRepository : Bool
  deriving DecidableEq, Repr

/-- The method `Server.Ping`. -/
def Server.Ping (rt : Runtime) (s : Server) : ServerStatus :=
  let status : ServerStatus := { Ping := true, DBRepository := false }
  match rt.RepositoryPing s.repository (2 * Second) with
  | none => { status with DBRepository := true }
  | some _ => status

/-! ## Concrete environments used to evaluate the code -/

/-- A middleware that records that it ran and returns. -/
def probe (st : Stage) : HandlerFunc :=
  fun _ c => .ok (c.emit (.ran st))

/-- An environment in which every external call succeeds; the live file system
holds `dist/index.html`. -/
def okCollab : Collab where
  RateLimitMiddleware := fun _ => .ok (probe .rateLimit)
  NewMysql := fun _ => .ok ⟨1⟩
  NewSqlite := fun _ => .ok ⟨2⟩
  NewPostgres := fun _ => .ok ⟨3⟩
  NewRedisClient := fun _ => .ok ⟨4⟩
  DockerNewClient := fun _ => (some ⟨5⟩, none)
  KubeNewClient := fun _ => (some ⟨6⟩, none)
  Migrate := fun _ => none
  Init := fun _ => none
  InitAuthorization := fun _ => none
  Recovery := probe .recovery
  MonitorMiddleware := probe .monitor
  CORSMiddleware := probe .cors
  RequestInfoMiddleware := fun _ => probe .requestInfo
  LogMiddleware := fun _ _ => probe .log
  AuthenticationMiddleware := fun _ _ => probe .authentication
  AuthorizationMiddleware := probe .authorization
  TraceMiddleware := probe .trace
  os := ⟨fun name => name == "dist/index.html"⟩

/-- As `okCollab`, but both optional clients fail to connect. -/
def noClients : Collab :=
  { okCollab with
    DockerNewClient := fun _ => (none, some "docker unreachable")
    KubeNewClient := fun _ => (none, some "cluster unreachable") }

/-- An embedded bundle that holds `/index.html` under every directory. -/
def bundle : EmbedFS where
  Sub := fun _ => .ok ⟨fun name => name == "/index.html"⟩

/-- A connection block with the given migration flag. -/
def dbBlock (migrate : Bool) : DBConfig :=
  { Host := "localhost", Port := 5432, Name := "app", User := "app", Password := "secret",
    Migrate := migrate, File := "app.db" }

/-- A development configuration on the postgres backend, optional clients off. -/
def devConf : Config where
  Server :=
    { ENV := "debug", Address := "127.0.0.1", Port := 8080, GracefulShutdownPeriod := 10,
      LimitConfigs := [], JWTSecret := "k", DbType := "postgres" }
  Postgres := dbBlock false
  Mysql := dbBlock false
  Sqlite := dbBlock false
  Redis := { Enable := false, Host := "localhost", Port := 6379, Password := "" }
  OAuthConfig := []
  Docker := { Enable := false, Host := "unix:///var/run/docker.sock" }
  Kubernetes := { Enable := false, WatchResources := [] }

/-- The configuration `devConf` with another storage-kind discriminator. -/
def withDbType (conf : Config) (kind : String) : Config :=
  { conf with Server := { conf.Server with DbType := kind } }

/-- The configuration `devConf` with another runtime mode. -/
def withENV (conf : Config) (mode : String) : Config :=
  { conf with Server := { conf.Server with ENV := mode } }

/-- The configuration with the docker flag replaced. -/
def withDocker (conf : Config) (enable : Bool) : Config :=
  { conf with Docker := { conf.Docker with Enable := enable } }

/-- The configuration with the kubernetes flag replaced. -/
def withKubernetes (conf : Config) (enable : Bool) : Config :=
  { conf with Kubernetes := { conf.Kubernetes with Enable := enable } }

/-- The logger handed to `New` in the examples. -/
def stdLogger : Logger := ⟨0⟩

/-- The handler chain of the engine `New` returned (empty when it failed). -/
def Provisioned.handlers (p : Provisioned) : List HandlerFunc :=
  match p.result with
  | .ok s => s.engine.handlers.map Prod.snd
  | .error _ => []

/-- The calls to a database constructor. -/
def Call.isDatabase : Call → Bool
  | .NewMysql _ | .NewSqlite _ | .NewPostgres _ => true
  | _ => false

/-- The release calls of a run. -/
def RunEvent.isRelease : RunEvent → Bool
  | .RepositoryClose | .ContainerClose _ => true
  | _ => false

/-- The database constructor that the `switch` in `New` selects. -/
def selectedBackend (x : Collab) (conf : Config) : Except Error GormDB :=
  if conf.Server.DbType = "mysql" then x.NewMysql conf.Mysql
  else if conf.Server.DbType = "sqlite" then x.NewSqlite conf.Sqlite
  else x.NewPostgres conf.Postgres

/-- Whether the container client is enabled and `docker.NewClient` returned no error. -/
def dockerUp (x : Collab) (conf : Config) : Bool :=
  conf.Docker.Enable && (x.DockerNewClient conf.Docker.Host).2.isNone

/-- Whether the cluster client is enabled and `kubernetes.NewClient` returned no error. -/
def kubeUp (x : Collab) (conf : Config) : Bool :=
  conf.Kubernetes.Enable && (x.KubeNewClient conf.Kubernetes).2.isNone

/-- The process entry: `New`, then `Run` on the server it returned. -/
def startServer (x : Collab) (dist : EmbedFS) (conf : Config) (logger : Logger)
    (rt : Runtime) : Option RunResult :=
  match (New x dist conf logger).result with
  | .ok s => some (s.Run rt)
  | .error _ => none

/-- The deadline of the context handed to `server.Shutdown`, if it was called. -/
def shutdownDeadline : List RunEvent → Option Int
  | [] => none
  | .Shutdown deadline _ :: _ => some deadline
  | _ :: rest => shutdownDeadline rest

/-- A run that receives SIGTERM one hundred seconds after start-up; `Shutdown`
reports an expired context as an error. -/
def lateSignal : Runtime where
  StartCache := fun _ => none
  startedAt := 0
  uptime := 100000000000
  signal := "terminated"
  Shutdown := fun deadline now =>
    if deadline ≤ now then some "context deadline exceeded" else none
  RepositoryClose := fun _ => some "close failed"
  ContainerClose := fun _ => none
  RepositoryPing := fun _ _ => none

/-- The configuration `devConf` on the mysql backend, where only the mysql
block asks for a migration. -/
def mysqlMigrateConf : Config :=
  { withDbType devConf "mysql" with Mysql := dbBlock true }

/-- The configuration `devConf` on the mysql backend, where only the unused
postgres block asks for a migration. -/
def postgresFlagConf : Config :=
  { withDbType devConf "mysql" with Postgres := dbBlock true }

/-- The connection block of the backend that `Server.DbType` selects. -/
def selectedBlock (conf : Config) : DBConfig :=
  if conf.Server.DbType = "mysql" then conf.Mysql
  else if conf.Server.DbType = "sqlite" then conf.Sqlite
  else conf.Postgres

/-! ## The blocks of `New` -/

theorem openDatabase_conf (x : Collab) (conf : Config) : (openDatabase x conf).conf = conf := by
  unfold openDatabase
  split_ifs <;> rfl

theorem openDatabase_value_ok (x : Collab) (conf : Config) (db : GormDB) :
    (openDatabase x conf).value = .ok db ↔ selectedBackend x conf = .ok db := by
  unfold openDatabase selectedBackend
  split_ifs
  · cases x.NewMysql conf.Mysql <;> simp
  · cases x.NewSqlite conf.Sqlite <;> simp
  · cases x.NewPostgres conf.Postgres <;> simp

theorem dockerStep_conf (x : Collab) (conf : Config) :
    (dockerStep x conf).conf = withDocker conf (dockerUp x conf) := by
  unfold dockerStep dockerUp withDocker
  rcases hx : x.DockerNewClient conf.Docker.Host with ⟨c, _ | e⟩ <;>
  cases hd : conf.Docker.Enable <;> simp [hd] <;> simp [← hd]

theorem kubeStep_conf (x : Collab) (conf : Config) :
    (kubeStep x conf).conf = withKubernetes conf (kubeUp x conf) := by
  unfold kubeStep kubeUp withKubernetes
  rcases hx : x.KubeNewClient conf.Kubernetes with ⟨c, _ | e⟩ <;>
  cases hd : conf.Kubernetes.Enable <;> simp [hd] <;> simp [← hd]

theorem dockerStep_value (x : Collab) (conf : Config) :
    (dockerStep x conf).value =
      if conf.Docker.Enable then (x.DockerNewClient conf.Docker.Host).1 else none := by
  unfold dockerStep
  rcases hx : x.DockerNewClient conf.Docker.Host with ⟨c, _ | e⟩ <;>
  cases hd : conf.Docker.Enable <;> simp

theorem kubeStep_value (x : Collab) (conf : Config) :
    (kubeStep x conf).value =
      if conf.Kubernetes.Enable then (x.KubeNewClient conf.Kubernetes).1 else none := by
  unfold kubeStep
  rcases hx : x.KubeNewClient conf.Kubernetes with ⟨c, _ | e⟩ <;>
  cases hd : conf.Kubernetes.Enable <;> simp

theorem migrateStep_conf (x : Collab) (conf : Config) (r : Repository) :
    (migrateStep x conf r).conf = conf := by
  unfold migrateStep
  split_ifs <;> rfl

theorem migrateStep_value (x : Collab) (conf : Config) (r : Repository) :
    (migrateStep x conf r).value = if conf.Postgres.Migrate then x.Migrate r else none := by
  unfold migrateStep
  split_ifs <;> rfl

theorem migrateStep_calls (x : Collab) (conf : Config) (r : Repository) :
    (migrateStep x conf r).calls = if conf.Postgres.Migrate then [.Migrate] else [] := by
  unfold migrateStep
  split_ifs <;> rfl

/-- The configuration behind the pointer once both optional blocks have run. -/
theorem optional_conf (x : Collab) (conf : Config) :
    (kubeStep x (dockerStep x conf).conf).conf =
      withKubernetes (withDocker conf (dockerUp x conf)) (kubeUp x conf) := by
  rw [kubeStep_conf, dockerStep_conf]
  rfl

/-- A successful `New`, taken apart: which external calls succeeded and what
the returned server holds. -/
theorem New_ok_inv (x : Collab) (dist : EmbedFS) (conf : Config) (logger : Logger) (s : Server)
    (h : (New x dist conf logger).result = .ok s) :
    ∃ rl db rdb, x.RateLimitMiddleware conf.Server.LimitConfigs = .ok rl ∧
      selectedBackend x conf = .ok db ∧ x.NewRedisClient conf.Redis = .ok rdb ∧
      (conf.Postgres.Migrate = true → x.Migrate ⟨db, rdb⟩ = none) ∧
      x.Init ⟨db, rdb⟩ = none ∧ x.InitAuthorization ⟨db, rdb⟩ = none ∧
      s.config = withKubernetes (withDocker conf (dockerUp x conf)) (kubeUp x conf) ∧
      s.repository = ⟨db, rdb⟩ ∧
      s.containerClient = (dockerStep x conf).value ∧
      s.kubeClient = (kubeStep x (dockerStep x conf).conf).value ∧
      s.controllers = [.user, .group, .auth, .rbac, .post]
        ++ (if dockerUp x conf then [.container (dockerStep x conf).value] else [])
        ++ (if kubeUp x conf then [.kube (kubeStep x (dockerStep x conf).conf).value] else []) ∧
      s.engine.handlers = [
        (.recovery, x.Recovery),
        (.rateLimit, rl),
        (.static, ServerStatic x.os "dist" conf.Server.ENV dist),
        (.monitor, x.MonitorMiddleware),
        (.cors, x.CORSMiddleware),
        (.requestInfo, x.RequestInfoMiddleware ["api"]),
        (.log, x.LogMiddleware logger "/"),
        (.authentication, x.AuthenticationMiddleware ⟨conf.Server.JWTSecret⟩ ⟨db, rdb⟩),
        (.authorization, x.AuthorizationMiddleware),
        (.trace, x.TraceMiddleware)] := by
  unfold New at h
  simp only [] at h
  split at h
  · simp at h
  rename_i rl h1
  split at h
  · simp at h
  rename_i db h2
  split at h
  · simp at h
  rename_i rdb h3
  split at h
  · simp at h
  rename_i h4
  split at h
  · simp at h
  rename_i h5
  split at h
  · simp at h
  rename_i h6
  simp only [Except.ok.injEq] at h
  subst h
  rw [migrateStep_value, optional_conf] at h4
  refine ⟨rl, db, rdb, h1, (openDatabase_value_ok x conf db).mp h2, h3, ?_, h5, h6, ?_⟩
  · intro hm
    simpa [withKubernetes, withDocker, hm] using h4
  · refine ⟨optional_conf x conf, rfl, rfl, rfl, ?_, ?_⟩
    · simp only [optional_conf]
      cases dockerUp x conf <;> cases kubeUp x conf <;> simp [withKubernetes, withDocker]
    · simp only [optional_conf]
      rfl

theorem New_succeeds_of (x : Collab) (dist : EmbedFS) (conf : Config) (logger : Logger)
    (rl : HandlerFunc) (db : GormDB) (rdb : RedisDB)
    (h1 : x.RateLimitMiddleware conf.Server.LimitConfigs = .ok rl)
    (h2 : selectedBackend x conf = .ok db) (h3 : x.NewRedisClient conf.Redis = .ok rdb)
    (h4 : conf.Postgres.Migrate = true → x.Migrate ⟨db, rdb⟩ = none)
    (h5 : x.Init ⟨db, rdb⟩ = none) (h6 : x.InitAuthorization ⟨db, rdb⟩ = none) :
    (New x dist conf logger).succeeds = true := by
  have h2' := (openDatabase_value_ok x conf db).mpr h2
  have h4' : (migrateStep x (kubeStep x (dockerStep x conf).conf).conf ⟨db, rdb⟩).value = none := by
    rw [migrateStep_value, optional_conf]
    cases hm : conf.Postgres.Migrate
    · simp [withKubernetes, withDocker, hm]
    · simpa [withKubernetes, withDocker, hm] using h4 hm
  unfold New Provisioned.succeeds
  simp only [h1, h2', h3, h4', h5, h6]

theorem New_succeeds_iff (x : Collab) (dist : EmbedFS) (conf : Config) (logger : Logger) :
    (New x dist conf logger).succeeds = true ↔
      ∃ rl db rdb, x.RateLimitMiddleware conf.Server.LimitConfigs = .ok rl ∧
        selectedBackend x conf = .ok db ∧ x.NewRedisClient conf.Redis = .ok rdb ∧
        (conf.Postgres.Migrate = true → x.Migrate ⟨db, rdb⟩ = none) ∧
        x.Init ⟨db, rdb⟩ = none ∧ x.InitAuthorization ⟨db, rdb⟩ = none := by
  constructor
  · intro h
    unfold Provisioned.succeeds at h
    split at h
    · rename_i s hs
      obtain ⟨rl, db, rdb, h1, h2, h3, h4, h5, h6, _⟩ := New_ok_inv x dist conf logger s hs
      exact ⟨rl, db, rdb, h1, h2, h3, h4, h5, h6⟩
    · simp at h
  · rintro ⟨rl, db, rdb, h1, h2, h3, h4, h5, h6⟩
    exact New_succeeds_of x dist conf logger rl db rdb h1 h2 h3 h4 h5 h6

/-- The final configuration and call log of `New` once storage and cache are up. -/
theorem New_after_redis (x : Collab) (dist : EmbedFS) (conf : Config) (logger : Logger)
    (rl : HandlerFunc) (db : GormDB) (rdb : RedisDB)
    (h1 : x.RateLimitMiddleware conf.Server.LimitConfigs = .ok rl)
    (h2 : (openDatabase x conf).value = .ok db) (h3 : x.NewRedisClient conf.Redis = .ok rdb) :
    (New x dist conf logger).conf =
        withKubernetes (withDocker conf (dockerUp x conf)) (kubeUp x conf) ∧
    ∃ rest, (New x dist conf logger).calls =
      [.RateLimitMiddleware] ++ (openDatabase x conf).calls ++ [.NewRedisClient]
        ++ (dockerStep x conf).calls ++ (kubeStep x (dockerStep x conf).conf).calls
        ++ [.NewRepository]
        ++ (migrateStep x (kubeStep x (dockerStep x conf).conf).conf ⟨db, rdb⟩).calls ++ rest ∧
      rest <+: [Call.Init] ++ wiringCalls ++ [.InitAuthorization, .SetMode conf.Server.ENV,
        .GinNew, .Use, .LoadHTMLFiles "static/terminal.html"] := by
  unfold New
  simp only [h1, h2, h3]
  split
  · exact ⟨optional_conf x conf, [], by simp, List.nil_prefix⟩
  split
  · exact ⟨optional_conf x conf, [.Init], by simp, by simp⟩
  split
  · refine ⟨optional_conf x conf, [Call.Init] ++ wiringCalls ++ [.InitAuthorization],
      by simp, ?_⟩
    exact ⟨[.SetMode conf.Server.ENV, .GinNew, .Use, .LoadHTMLFiles "static/terminal.html"],
      by simp⟩
  · refine ⟨optional_conf x conf, _, by simp; rfl, ?_⟩
    simp only [optional_conf]
    exact List.prefix_refl _

theorem openDatabase_calls_default (x : Collab) (conf : Config)
    (h1 : conf.Server.DbType ≠ "mysql") (h2 : conf.Server.DbType ≠ "sqlite") :
    (openDatabase x conf).calls = [.NewPostgres conf.Postgres] ∧
    (openDatabase x conf).value =
      match x.NewPostgres conf.Postgres with
      | .error err => .error (Wrap err "Postgres db init failed")
      | .ok db => .ok db := by
  unfold openDatabase
  rw [if_neg h1, if_neg h2]
  exact ⟨rfl, rfl⟩

theorem dockerStep_calls_database (x : Collab) (conf : Config) :
    (dockerStep x conf).calls.filter Call.isDatabase = [] := by
  unfold dockerStep
  split_ifs
  · split <;> rfl
  · rfl

theorem kubeStep_calls_database (x : Collab) (conf : Config) :
    (kubeStep x conf).calls.filter Call.isDatabase = [] := by
  unfold kubeStep
  split_ifs
  · split <;> rfl
  · rfl

theorem migrateStep_calls_database (x : Collab) (conf : Config) (r : Repository) :
    (migrateStep x conf r).calls.filter Call.isDatabase = [] := by
  unfold migrateStep
  split_ifs <;> rfl

theorem tail_calls_database (conf : Config) (rest : List Call)
    (h : rest <+: [Call.Init] ++ wiringCalls ++ [.InitAuthorization, .SetMode conf.Server.ENV,
        .GinNew, .Use, .LoadHTMLFiles "static/terminal.html"]) :
    rest.filter Call.isDatabase = [] := by
  rw [List.filter_eq_nil_iff]
  intro c hc
  have := h.subset hc
  simp [wiringCalls] at this
  rcases this with h | h | h | h | h | h | h | h | h | h | h | h | h | h | h | h | h | h | h <;>
    subst h <;> simp [Call.isDatabase]

/-! ## Provisioning -/

/-- C1 (as stated, refuted): a configuration with the unrecognized storage
kind `"oracle"` is provisioned successfully when the collaborators succeed, so
it is false that every unrecognized kind makes `New` return an error. -/
theorem New_unrecognized_kind_counterexample :
    ¬ ∀ (x : Collab) (dist : EmbedFS) (conf : Config) (logger : Logger),
        conf.Server.DbType ∉ ["mysql", "sqlite", "postgres"] →
        (New x dist conf logger).succeeds = false := by
  intro h
  have h' := h okCollab bundle (withDbType devConf "oracle") stdLogger (by decide)
  revert h'
  decide

/-- C1 (amended): for every configuration whose `Server.DbType` is neither
`"mysql"` nor `"sqlite"` - the recognized `"postgres"` and every unrecognized
value alike - `New`, once the rate limiter is built, calls `NewPostgres` on
`conf.Postgres` and no other database constructor, and whenever that
constructor fails it returns the wrapped error and no server, whatever the
other database constructors would return. -/
theorem New_default_kind_uses_postgres (x : Collab) (dist : EmbedFS) (conf : Config)
    (logger : Logger) (rl : HandlerFunc)
    (h1 : conf.Server.DbType ≠ "mysql") (h2 : conf.Server.DbType ≠ "sqlite")
    (hrl : x.RateLimitMiddleware conf.Server.LimitConfigs = .ok rl) :
    (New x dist conf logger).calls.filter Call.isDatabase = [.NewPostgres conf.Postgres] ∧
    ∀ err, x.NewPostgres conf.Postgres = .error err →
      (New x dist conf logger).result = .error (Wrap err "Postgres db init failed") ∧
      (New x dist conf logger).succeeds = false := by
  obtain ⟨hcalls, hval⟩ := openDatabase_calls_default x conf h1 h2
  constructor
  · rcases hdb : (openDatabase x conf).value with e | db
    · unfold New
      simp only [hrl, hdb, hcalls]
      rfl
    rcases hr : x.NewRedisClient conf.Redis with e | rdb
    · unfold New
      simp only [hrl, hdb, hcalls, hr]
      rfl
    obtain ⟨_, rest, hc, hrest⟩ := New_after_redis x dist conf logger rl db rdb hrl hdb hr
    rw [hc, hcalls]
    simp only [List.filter_append, dockerStep_calls_database, kubeStep_calls_database,
      migrateStep_calls_database, tail_calls_database conf rest hrest]
    rfl
  · intro err herr
    rw [herr] at hval
    unfold New Provisioned.succeeds
    simp [hrl, hval]

theorem New_default_kind_uses_postgres_witness :
    (New { okCollab with NewPostgres := fun _ => .error "connection refused" } bundle
        (withDbType devConf "oracle") stdLogger).calls.filter Call.isDatabase
      = [.NewPostgres (dbBlock false)] ∧
    (New { okCollab with NewPostgres := fun _ => .error "connection refused" } bundle
        (withDbType devConf "oracle") stdLogger).succeeds = false :=
  have h := New_default_kind_uses_postgres
    { okCollab with NewPostgres := fun _ => .error "connection refused" } bundle
    (withDbType devConf "oracle") stdLogger (probe .rateLimit) (by decide) (by decide) rfl
  ⟨h.1, (h.2 "connection refused" rfl).2⟩

/-- C4: in the chain of every server that `New` returns, the ten slots hold, in
this order, gin's recovery handler, the rate limiter built from
`Server.LimitConfigs`, the static handler `ServerStatic "dist" ENV dist`, then
the monitoring, CORS, request-info, logging, authentication, authorization and
tracing middleware; each of the nine stages occurs exactly once and
authorization sits directly after authentication, for every configuration. -/
theorem New_chain_order (x : Collab) (dist : EmbedFS) (conf : Config) (logger : Logger)
    (s : Server) (h : (New x dist conf logger).result = .ok s) :
    (∃ rl, x.RateLimitMiddleware conf.Server.LimitConfigs = .ok rl ∧
      s.engine.handlers = [
        (.recovery, x.Recovery),
        (.rateLimit, rl),
        (.static, ServerStatic x.os "dist" conf.Server.ENV dist),
        (.monitor, x.MonitorMiddleware),
        (.cors, x.CORSMiddleware),
        (.requestInfo, x.RequestInfoMiddleware ["api"]),
        (.log, x.LogMiddleware logger "/"),
        (.authentication, x.AuthenticationMiddleware ⟨conf.Server.JWTSecret⟩ s.repository),
        (.authorization, x.AuthorizationMiddleware),
        (.trace, x.TraceMiddleware)]) ∧
    (s.engine.handlers.map Prod.fst).filter (fun st => decide (st ≠ Stage.recovery)) =
      [.rateLimit, .static, .monitor, .cors, .requestInfo, .log, .authentication,
        .authorization, .trace] ∧
    (∀ st : Stage, (s.engine.handlers.map Prod.fst).count st = 1) ∧
    (s.engine.handlers.map Prod.fst).indexOf Stage.authorization =
      (s.engine.handlers.map Prod.fst).indexOf Stage.authentication + 1 ∧
    s.engine.handlers.length = 10 := by
  obtain ⟨rl, db, rdb, hrl, -, -, -, -, -, -, hrepo, -, -, -, hh⟩ :=
    New_ok_inv x dist conf logger s h
  refine ⟨⟨rl, hrl, by rw [hh, hrepo]⟩, ?_⟩
  rw [hh]
  simp only [List.map_cons, List.map_nil]
  refine ⟨by decide, ?_, by decide, rfl⟩
  intro st
  cases st <;> decide

theorem New_chain_order_witness :
    ∃ s, (New okCollab bundle devConf stdLogger).result = .ok s ∧
      s.engine.handlers.map Prod.snd =
        [probe .recovery, probe .rateLimit, ServerStatic okCollab.os "dist" "debug" bundle,
          probe .monitor, probe .cors, probe .requestInfo, probe .log, probe .authentication,
          probe .authorization, probe .trace] ∧
      (s.engine.handlers.map Prod.fst).filter (fun st => decide (st ≠ Stage.recovery)) =
        [.rateLimit, .static, .monitor, .cors, .requestInfo, .log, .authentication,
          .authorization, .trace] := by
  refine ⟨_, rfl, ?_, ?_⟩
  · obtain ⟨rl, hrl, hh⟩ := (New_chain_order okCollab bundle devConf stdLogger _ rfl).1
    have hrl2 : rl = probe .rateLimit := (Except.ok.inj hrl).symm
    rw [hh, hrl2]
    rfl
  · exact (New_chain_order okCollab bundle devConf stdLogger _ rfl).2.1

/-- C5: the controller list of every server that `New` returns is user, group,
auth, rbac, post in that order, then the container controller exactly when
`Docker.Enable` was set and `docker.NewClient` returned no error, then the kube
controller exactly when `Kubernetes.Enable` was set and `kubernetes.NewClient`
returned no error. -/
theorem New_controllers (x : Collab) (dist : EmbedFS) (conf : Config) (logger : Logger)
    (s : Server) (h : (New x dist conf logger).result = .ok s) :
    s.controllers = [.user, .group, .auth, .rbac, .post]
      ++ (if conf.Docker.Enable = true ∧ (x.DockerNewClient conf.Docker.Host).2 = none
          then [.container (x.DockerNewClient conf.Docker.Host).1] else [])
      ++ (if conf.Kubernetes.Enable = true ∧ (x.KubeNewClient conf.Kubernetes).2 = none
          then [.kube (x.KubeNewClient conf.Kubernetes).1] else []) := by
  obtain ⟨rl, db, rdb, -, -, -, -, -, -, -, -, -, -, hc, -⟩ := New_ok_inv x dist conf logger s h
  rw [hc, dockerStep_value, kubeStep_value, dockerStep_conf]
  unfold dockerUp kubeUp withDocker
  rcases hx : x.DockerNewClient conf.Docker.Host with ⟨c, _ | e⟩ <;>
  rcases hk : x.KubeNewClient conf.Kubernetes with ⟨k, _ | e2⟩ <;>
  cases hd : conf.Docker.Enable <;> cases hke : conf.Kubernetes.Enable <;>
  simp [hx, hk, hd, hke]

theorem New_controllers_witness :
    ∃ s, (New { okCollab with KubeNewClient := fun _ => (none, some "cluster unreachable") }
          bundle (withKubernetes (withDocker devConf true) true) stdLogger).result = .ok s ∧
      s.controllers = [.user, .group, .auth, .rbac, .post, .container (some ⟨5⟩)] := by
  refine ⟨_, rfl, ?_⟩
  exact New_controllers { okCollab with KubeNewClient := fun _ => (none, some "cluster unreachable") }
    bundle (withKubernetes (withDocker devConf true) true) stdLogger _ rfl

theorem openDatabase_calls_isDatabase (x : Collab) (conf : Config) (c : Call)
    (h : c ∈ (openDatabase x conf).calls) : c.isDatabase = true := by
  unfold openDatabase at h
  split_ifs at h <;> simp at h <;> subst h <;> rfl

/-- Before the cache is up, `New` has called nothing but the rate limiter, a
database constructor and the cache constructor. -/
theorem New_calls_early (x : Collab) (dist : EmbedFS) (conf : Config) (logger : Logger)
    (h : ∀ rl db rdb, x.RateLimitMiddleware conf.Server.LimitConfigs = .ok rl →
      (openDatabase x conf).value = .ok db → x.NewRedisClient conf.Redis = .ok rdb → False)
    (c : Call) (hc : c ∈ (New x dist conf logger).calls) :
    c = .RateLimitMiddleware ∨ c.isDatabase = true ∨ c = .NewRedisClient := by
  rcases h1 : x.RateLimitMiddleware conf.Server.LimitConfigs with e | rl
  · unfold New at hc
    simp only [h1] at hc
    simp at hc
    exact Or.inl hc
  rcases h2 : (openDatabase x conf).value with e | db
  · unfold New at hc
    simp only [h1, h2] at hc
    simp at hc
    rcases hc with hc | hc
    · exact Or.inl hc
    · exact Or.inr (Or.inl (openDatabase_calls_isDatabase x conf c hc))
  rcases h3 : x.NewRedisClient conf.Redis with e | rdb
  · unfold New at hc
    simp only [h1, h2, h3] at hc
    simp at hc
    rcases hc with hc | hc | hc
    · exact Or.inl hc
    · exact Or.inr (Or.inl (openDatabase_calls_isDatabase x conf c hc))
    · exact Or.inr (Or.inr hc)
  · exact absurd (h rl db rdb h1 h2 h3) id

/-- Once an optional client has been asked for, the final configuration is the
initial one with each optional flag kept only if its client came up. -/
theorem New_conf_of_optional_call (x : Collab) (dist : EmbedFS) (conf : Config)
    (logger : Logger) (c : Call) (hc : c ∈ (New x dist conf logger).calls)
    (hkind : c = .DockerNewClient conf.Docker.Host ∨ c = .KubeNewClient) :
    (New x dist conf logger).conf =
      withKubernetes (withDocker conf (dockerUp x conf)) (kubeUp x conf) := by
  by_cases h : ∀ rl db rdb, x.RateLimitMiddleware conf.Server.LimitConfigs = .ok rl →
      (openDatabase x conf).value = .ok db → x.NewRedisClient conf.Redis = .ok rdb → False
  · exfalso
    have := New_calls_early x dist conf logger h c hc
    rcases hkind with hk | hk <;> subst hk <;> simp [Call.isDatabase] at this
  · push_neg at h
    obtain ⟨rl, db, rdb, h1, h2, h3, -⟩ := h
    exact (New_after_redis x dist conf logger rl db rdb h1 h2 h3).1

/-- C6: a failing optional client never makes `New` fail.  If `Docker.Enable`
is set and `docker.NewClient` returns an error, `New` succeeds exactly when it
succeeds on the same configuration with `Docker.Enable` off, and once the client
was asked for the flag behind the `conf` pointer is false; the same holds for
`Kubernetes.Enable` and `kubernetes.NewClient`. -/
theorem New_optional_client_failure (x : Collab) (dist : EmbedFS) (conf : Config)
    (logger : Logger) :
    (conf.Docker.Enable = true → (x.DockerNewClient conf.Docker.Host).2 ≠ none →
      (New x dist conf logger).succeeds = (New x dist (withDocker conf false) logger).succeeds ∧
      (Call.DockerNewClient conf.Docker.Host ∈ (New x dist conf logger).calls →
        (New x dist conf logger).conf.Docker.Enable = false) ∧
      (∀ s, (New x dist conf logger).result = .ok s → s.config.Docker.Enable = false)) ∧
    (conf.Kubernetes.Enable = true → (x.KubeNewClient conf.Kubernetes).2 ≠ none →
      (New x dist conf logger).succeeds =
        (New x dist (withKubernetes conf false) logger).succeeds ∧
      (Call.KubeNewClient ∈ (New x dist conf logger).calls →
        (New x dist conf logger).conf.Kubernetes.Enable = false) ∧
      (∀ s, (New x dist conf logger).result = .ok s → s.config.Kubernetes.Enable = false)) := by
  constructor
  · intro _ hfail
    have hup : dockerUp x conf = false := by
      unfold dockerUp
      cases h : (x.DockerNewClient conf.Docker.Host).2
      · exact absurd h hfail
      · simp
    refine ⟨?_, ?_, ?_⟩
    · rw [Bool.eq_iff_iff, New_succeeds_iff, New_succeeds_iff]
      rfl
    · intro hmem
      rw [New_conf_of_optional_call x dist conf logger _ hmem (Or.inl rfl), hup]
      rfl
    · intro s hs
      obtain ⟨_, _, _, -, -, -, -, -, -, hcfg, -⟩ := New_ok_inv x dist conf logger s hs
      rw [hcfg, hup]
      rfl
  · intro _ hfail
    have hup : kubeUp x conf = false := by
      unfold kubeUp
      cases h : (x.KubeNewClient conf.Kubernetes).2
      · exact absurd h hfail
      · simp
    refine ⟨?_, ?_, ?_⟩
    · rw [Bool.eq_iff_iff, New_succeeds_iff, New_succeeds_iff]
      rfl
    · intro hmem
      rw [New_conf_of_optional_call x dist conf logger _ hmem (Or.inr rfl), hup]
      rfl
    · intro s hs
      obtain ⟨_, _, _, -, -, -, -, -, -, hcfg, -⟩ := New_ok_inv x dist conf logger s hs
      rw [hcfg, hup]
      rfl

theorem New_optional_client_failure_witness :
    ((New noClients bundle (withKubernetes (withDocker devConf true) true) stdLogger).succeeds =
        (New noClients bundle (withDocker (withKubernetes (withDocker devConf true) true) false)
          stdLogger).succeeds ∧
      (New noClients bundle (withKubernetes (withDocker devConf true) true)
        stdLogger).conf.Docker.Enable = false) ∧
    ((New noClients bundle (withKubernetes (withDocker devConf true) true) stdLogger).succeeds =
        (New noClients bundle (withKubernetes (withKubernetes (withDocker devConf true) true) false)
          stdLogger).succeeds ∧
      (New noClients bundle (withKubernetes (withDocker devConf true) true)
        stdLogger).conf.Kubernetes.Enable = false) ∧
    (New noClients bundle (withKubernetes (withDocker devConf true) true) stdLogger).succeeds
      = true :=
  have h := New_optional_client_failure noClients bundle
    (withKubernetes (withDocker devConf true) true) stdLogger
  have hd := h.1 rfl (by decide)
  have hk := h.2 rfl (by decide)
  ⟨⟨hd.1, hd.2.1 (by decide)⟩, ⟨hk.1, hk.2.1 (by decide)⟩, by decide⟩

/-- C7 (the code departs from the claim): on the mysql backend with
`Mysql.Migrate = true` and `Postgres.Migrate = false`, `New` succeeds without a
single call of `repository.Migrate`; with the two flags swapped it migrates
once although the selected backend did not ask for it.  `New` reads
`conf.Postgres.Migrate` whatever `Server.DbType` selects. -/
theorem New_migrate_ignores_selected_backend :
    (selectedBlock mysqlMigrateConf).Migrate = true ∧
    (New okCollab bundle mysqlMigrateConf stdLogger).succeeds = true ∧
    (New okCollab bundle mysqlMigrateConf stdLogger).calls.count Call.Migrate = 0 ∧
    (selectedBlock postgresFlagConf).Migrate = false ∧
    (New okCollab bundle postgresFlagConf stdLogger).succeeds = true ∧
    (New okCollab bundle postgresFlagConf stdLogger).calls.count Call.Migrate = 1 := by
  decide

/-! ## Static asset resolution -/

/-- C2 (the code departs from the claim): outside release mode a request for
`/index.html`, present on disk as `dist/index.html`, is served by the static
handler and the chain is not aborted: monitoring, CORS, request-info, logging,
authentication, authorization and tracing all run afterwards.  In release mode
the same request is served from the bundle and the chain stops there. -/
theorem ServerStatic_disk_hit_does_not_abort :
    serve (New okCollab bundle devConf stdLogger).handlers 64 "/index.html" =
      .ok
        { path := "/index.html"
          index := 10
          events := [.ran .recovery, .ran .rateLimit, .osOpen "dist/index.html" true,
            .file "dist/index.html", .close "dist/index.html", .ran .monitor, .ran .cors,
            .ran .requestInfo, .ran .log, .ran .authentication, .ran .authorization,
            .ran .trace] } ∧
    serve (New okCollab bundle (withENV devConf "release") stdLogger).handlers 64 "/index.html" =
      .ok
        { path := "/index.html"
          index := 64
          events := [.ran .recovery, .ran .rateLimit, .fsOpen "/index.html" true,
            .serveHTTP "/index.html", .close "/index.html"] } :=
  ⟨rfl, rfl⟩

/-! ## Lifecycle -/

theorem initRouter_no_release (s : Server) :
    s.initRouter.filter RunEvent.isRelease = [] := by
  rw [List.filter_eq_nil_iff]
  intro e he
  unfold Server.initRouter at he
  simp only [List.mem_append, List.mem_map] at he
  rcases he with ((he | he) | ⟨c, -, rfl⟩) | he
  · simp at he
    rcases he with h | h | h | h | h | h <;> subst h <;> simp [RunEvent.isRelease]
  · split_ifs at he
    · simp at he
      subst he
      simp [RunEvent.isRelease]
    · simp at he
  · simp [RunEvent.isRelease]
  · simp at he
    subst he
    simp [RunEvent.isRelease]

theorem Close_release (rt : Runtime) (s : Server) :
    (s.Close rt).filter RunEvent.isRelease =
      RunEvent.RepositoryClose ::
        (match s.containerClient with
          | some c => [RunEvent.ContainerClose c]
          | none => []) := by
  unfold Server.Close
  cases rt.RepositoryClose s.repository <;> cases hc : s.containerClient <;>
    simp [RunEvent.isRelease, List.filter_cons]
  all_goals
    rename_i c
    cases rt.ContainerClose c <;> simp [RunEvent.isRelease, List.filter_cons]

/-- C9: on both return paths of `Run` (a `StartCache` error, or the result of
`Shutdown`) `Close` runs exactly once, as the last thing `Run` does; it closes
the repository first and then, exactly when a container client exists, that
client, once, whatever the two close calls return; and the value `Run` returns
does not depend on what the close calls return. -/
theorem Run_teardown (rt : Runtime) (s : Server) :
    (∃ pre, (s.Run rt).events = pre ++ s.Close rt ∧ pre.filter RunEvent.isRelease = []) ∧
    (s.Run rt).events.filter RunEvent.isRelease =
      RunEvent.RepositoryClose ::
        (match s.containerClient with
          | some c => [RunEvent.ContainerClose c]
          | none => []) ∧
    (∀ (f : Repository → Option Error) (g : DockerClient → Option Error),
      (s.Run { rt with RepositoryClose := f, ContainerClose := g }).ret = (s.Run rt).ret) ∧
    (s.Run rt).ret =
      (match s.kubeClient with
        | some k =>
          match rt.StartCache k with
          | some err => some err
          | none =>
            rt.Shutdown
              (rt.startedAt + wrapInt64 (wrapInt64 s.config.Server.GracefulShutdownPeriod * Second))
              rt.signalAt
        | none =>
          rt.Shutdown
            (rt.startedAt + wrapInt64 (wrapInt64 s.config.Server.GracefulShutdownPeriod * Second))
            rt.signalAt) := by
  have hpre : ∃ pre, (s.Run rt).events = pre ++ s.Close rt ∧
      pre.filter RunEvent.isRelease = [] := by
    unfold Server.Run
    rcases hk : s.kubeClient with _ | k
    · refine ⟨_, by simp only []; rw [List.append_assoc], ?_⟩
      simp [List.filter_append, initRouter_no_release, RunEvent.isRelease, List.filter_cons]
    · rcases hs : rt.StartCache k with _ | err
      · refine ⟨_, by simp only [hs]; rw [List.append_assoc], ?_⟩
        simp [List.filter_append, initRouter_no_release, RunEvent.isRelease, List.filter_cons]
      · refine ⟨s.initRouter ++ [RunEvent.StartCache], by simp only [hs], ?_⟩
        simp [List.filter_append, initRouter_no_release, RunEvent.isRelease, List.filter_cons]
  refine ⟨hpre, ?_, ?_, ?_⟩
  · obtain ⟨pre, hev, hnil⟩ := hpre
    rw [hev, List.filter_append, hnil, List.nil_append, Close_release]
  · intro f g
    unfold Server.Run Runtime.signalAt
    rcases hk : s.kubeClient with _ | k
    · rfl
    · rcases hs : rt.StartCache k with _ | err <;> simp [hs]
  · unfold Server.Run
    rcases hk : s.kubeClient with _ | k
    · rfl
    · rcases hs : rt.StartCache k with _ | err <;> simp [hs]

/-- C10 (the code departs from the claim): a server with a ten second grace
period that receives its signal one hundred seconds after start-up hands
`Shutdown` a deadline of start-up plus ten seconds, which lies ninety seconds
before the signal, not ten seconds after it: the timeout context is created
before `Run` blocks on the signal channel. -/
theorem Run_deadline_counts_from_startup :
    devConf.Server.GracefulShutdownPeriod = 10 ∧
    lateSignal.signalAt = 100 * Second ∧
    (startServer okCollab bundle devConf stdLogger lateSignal).map
        (fun r => shutdownDeadline r.events) = some (some (10 * Second)) ∧
    (startServer okCollab bundle devConf stdLogger lateSignal).map
        (fun r => shutdownDeadline r.events) ≠ some (some (100 * Second + 10 * Second)) ∧
    (startServer okCollab bundle devConf stdLogger lateSignal).map (fun r => r.ret) =
      some (some "context deadline exceeded") := by
  decide

/-! ## The traversal guard of the static handler -/

theorem stringsContains_iff (s substr : String) :
    stringsContains s substr = true ↔ substr.toList <:+: s.toList := by
  unfold stringsContains
  rw [List.any_eq_true]
  constructor
  · rintro ⟨t, ht, hp⟩
    rw [List.mem_tails] at ht
    rw [List.isPrefixOf_iff_prefix] at hp
    exact List.infix_iff_prefix_suffix.mpr ⟨t, hp, ht⟩
  · intro h
    obtain ⟨t, hp, hs⟩ := List.infix_iff_prefix_suffix.mp h
    exact ⟨t, (List.mem_tails _ _).mpr hs, List.isPrefixOf_iff_prefix.mpr hp⟩

theorem stringsContains_of_split (s substr a b : String) (h : s = a ++ substr ++ b) :
    stringsContains s substr = true := by
  rw [stringsContains_iff]
  subst h
  refine ⟨a.toList, b.toList, ?_⟩
  simp [String.toList]

/-- C3: in every mode other than release, a request whose path contains `..`
makes the static handler do exactly what `ctx.Next()` does on the untouched
context: nothing is opened, nothing is served, the index is not set to the
abort index, and control passes to the next handler. -/
theorem ServerStatic_dotdot_falls_through (os : StaticEnv) (pfx mode : String)
    (embedFs : EmbedFS) (next : Context → Except Fault Context) (ctx : Context)
    (hmode : mode ≠ ReleaseMode) (hdots : ∃ a b : String, ctx.path = a ++ ".." ++ b) :
    ServerStatic os pfx mode embedFs next ctx = next ctx := by
  obtain ⟨a, b, hab⟩ := hdots
  have hc : stringsContains ctx.path ".." = true := stringsContains_of_split _ _ a b hab
  simp [ServerStatic, hmode, hc]

theorem ServerStatic_dotdot_falls_through_witness :
    "debug" ≠ ReleaseMode ∧
    (∃ a b : String, "/../etc/passwd" = a ++ ".." ++ b) ∧
    ServerStatic okCollab.os "dist" "debug" bundle (fun c => .ok (c.emit (.ran .monitor)))
        ⟨"/../etc/passwd", 2, []⟩ = .ok ⟨"/../etc/passwd", 2, [.ran .monitor]⟩ :=
  ⟨by decide, ⟨"/", "/etc/passwd", by decide⟩,
    ServerStatic_dotdot_falls_through okCollab.os "dist" "debug" bundle
      (fun c => .ok (c.emit (.ran .monitor))) ⟨"/../etc/passwd", 2, []⟩ (by decide)
      ⟨"/", "/etc/passwd", by decide⟩⟩

/-! ## Health probe -/

/-- C8: the health probe always reports `Ping = true`, and `DBRepository` is
true exactly when `repository.Ping` returned no error: a reachable backend gives
`{ping: true, dbRepository: true}`, an unreachable one
`{ping: true, dbRepository: false}`. -/
theorem Ping_status (rt : Runtime) (s : Server) :
    (s.Ping rt).Ping = true ∧
    ((s.Ping rt).DBRepository = true ↔ rt.RepositoryPing s.repository (2 * Second) = none) ∧
    s.Ping rt =
      { Ping := true, DBRepository := (rt.RepositoryPing s.repository (2 * Second)).isNone } := by
  unfold Server.Ping
  cases h : rt.RepositoryPing s.repository (2 * Second) <;> simp

end GoWebInit
